import Mathlib

/-
Verification of the Media-Gen repository core against its specification.

Shallow embedding of:
  - pollVideoStatus           (src/unnamed/part_013, lines 274-298)
  - getVideoById              (src/unnamed/part_013, lines 53-65)
  - getPromptById             (src/unnamed/part_011, lines 50-62)
  - getUserPrompts            (src/unnamed/part_011, lines 64-76)
  - getUserImages             (src/src/contexts/ImageContext.tsx, lines 78-93)
  - generateImage             (src/unnamed/part_009, lines 36-176)
  - the serverless handler    (src/unnamed/part_000)

Database row shapes follow src/db/schema.sql and the generated
database.types declarations (src/unnamed/part_018). Timestamps are
modelled as natural numbers, external collaborators (Supabase, fetch)
as explicit outcome parameters.
-/

namespace MediaGen

/-- Status enum of the videos table (schema.sql: video_status). -/
inductive VideoStatus
  | queued
  | running
  | succeeded
  | failed
  | cancelled
deriving DecidableEq, Repr

/-- Status enum of the prompts table (schema.sql: prompt_status). -/
inductive PromptStatus
  | pending
  | processing
  | completed
  | failed
deriving DecidableEq, Repr

/-- Row of the videos table, restricted to the fields the verified code
reads or writes (id, prompt_id, url, status, error_message). -/
structure Video where
  id : String
  prompt_id : String
  url : Option String
  status : VideoStatus
  error_message : Option String
deriving DecidableEq, Repr

/-- Terminal check used by pollVideoStatus (part_013 line 286): the
polling loop stops on succeeded, failed or cancelled. -/
def VideoStatus.isTerminal : VideoStatus → Bool
  | VideoStatus.succeeded => true
  | VideoStatus.failed => true
  | VideoStatus.cancelled => true
  | _ => false

/-- Outcome of one getVideoById call inside a polling tick: the query
throws, returns null, or returns a video row. -/
inductive QueryResult
  | qerror (msg : String)
  | qnull
  | qfound (v : Video)
deriving DecidableEq, Repr

/-- Poller state: true while the interval is scheduled, false once
clearInterval has run. -/
def pollStart : Bool := true

/-- The cleanup function returned by pollVideoStatus (part_013 line 297)
calls clearInterval, deactivating the interval. -/
def pollCancel (_ : Bool) : Bool := false

/-- One tick of the interval body of pollVideoStatus (part_013 lines
275-294). Returns the next interval state, whether a status query was
issued this tick, and the callback payload fired this tick (if any).
An inactive interval never runs. On a query error the catch block logs
and calls clearInterval. On a found video the callback fires
unconditionally, and clearInterval runs when the status is terminal.
The setVideos local-state update is presentational and not modelled. -/
def pollTick (active : Bool) (r : QueryResult) : Bool × Bool × Option Video :=
  if active then
    match r with
    | QueryResult.qerror _ => (false, true, none)
    | QueryResult.qnull => (active, true, none)
    | QueryResult.qfound v => (!v.status.isTerminal, true, some v)
  else
    (active, false, none)

/-- Run of the poller over a sequence of tick outcomes: for each tick,
record whether a query was issued and the callback payload. -/
def pollRun (active : Bool) : List QueryResult → List (Bool × Option Video)
  | [] => []
  | r :: rs =>
    let t := pollTick active r
    (t.2.1, t.2.2) :: pollRun t.1 rs

/-- Number of status queries actually issued over a run. -/
def queriesIssued (active : Bool) (rs : List QueryResult) : Nat :=
  ((pollRun active rs).filter (fun t => t.1)).length

/-- Callback payloads fired over a run, in order. -/
def callbacksFired (active : Bool) (rs : List QueryResult) : List Video :=
  (pollRun active rs).filterMap (fun t => t.2)

/-- Sample video row in a terminal state. -/
def vSucc : Video :=
  { id := "v1", prompt_id := "p1", url := some "https://x/v.mp4",
    status := VideoStatus.succeeded, error_message := none }

/-- Sample video row in a non-terminal state. -/
def vRunning : Video :=
  { id := "v1", prompt_id := "p1", url := none,
    status := VideoStatus.running, error_message := none }

/-- Parameters of generateImage (part_009, GenerateImageParams). Fields
with TypeScript defaults are optional. The guidance scale is the literal
default 3 and is modelled as a natural number. -/
structure GenerateImageParams where
  prompt : String
  model : Option String
  size : Option String
  guidance_scale : Option Nat
  watermark : Option Bool
  userId : String
deriving DecidableEq, Repr

/-- Row of the prompts table as produced by the generateImage insert
(part_009 lines 48-62) together with the column defaults of schema.sql.
The insert payload carries no status key, so the row receives the
schema default status, pending. -/
structure PromptRecord where
  id : String
  user_id : String
  prompt : String
  model_used : String
  type : String
  size : String
  guidance_scale : Nat
  language : String
  status : PromptStatus
deriving DecidableEq, Repr

/-- Downloaded blob: byte size and MIME type, an empty string modelling
a falsy blob.type. -/
structure Blob where
  size : Nat
  type : String
deriving DecidableEq, Repr

/-- One element of data.data in the generation API response; the url
field may be absent (part_009 line 116). -/
structure ImageItem where
  url : Option String
deriving DecidableEq, Repr

/-- Payload persisted into the images table per item (part_009 lines
130-136): prompt_id, the original external url, size, file_size and
mime_type. The table has no column for the bucket URL. -/
structure ImageRecord where
  prompt_id : String
  url : String
  size : String
  file_size : Nat
  mime_type : String
deriving DecidableEq, Repr

/-- Element of the in-memory result list savedImages (part_009 lines
149-154): row id, external url, bucket URL and size. -/
structure SavedImage where
  id : String
  url : String
  bucketUrl : String
  size : String
deriving DecidableEq, Repr

/-- Return value of generateImage (part_009, GeneratedImageResult). -/
structure GeneratedImageResult where
  promptId : String
  images : List SavedImage
deriving DecidableEq, Repr

/-- Database rows persisted by one generateImage run. -/
structure ImageDbState where
  prompts : List PromptRecord
  images : List ImageRecord
deriving DecidableEq, Repr

/-- Behaviour of the external collaborators of generateImage: the
prompt insert (error message or new row id), the serverless call
(HTTP status and error text, or the data.data array, absent when the
body lacks a data field), the per-url download, and the per-index
storage upload and images-table insert. -/
structure ImageEnv where
  promptInsert : Except String String
  apiResponse : Except (Nat × String) (Option (List ImageItem))
  download : String → Except String Blob
  upload : Nat → Except String String
  insertImage : Nat → Except String String

/-- Default model identifier of generateImage (part_009 line 39). -/
def defaultModel : String := "seedream-3-0-t2i-250415"

/-- Prompt row created by Step 1 of generateImage: the insert payload of
part_009 lines 48-56 plus the schema.sql status default, pending. -/
def mkPromptRecord (params : GenerateImageParams) (id : String) : PromptRecord :=
  { id := id
    user_id := params.userId
    prompt := params.prompt
    model_used := params.model.getD defaultModel
    type := "image"
    size := params.size.getD "1024x1024"
    guidance_scale := params.guidance_scale.getD 3
    language := "en"
    status := PromptStatus.pending }

/-- MIME type stored for a blob (part_009 line 135): blob.type, or
image/png when falsy. -/
def mimeOf (b : Blob) : String :=
  if b.type = "" then "image/png" else b.type

/-- Processing of one item of the loop body (part_009 lines 113-159):
skip when the url is absent; download, upload, then insert the row,
any failure skipping the item; on full success return the savedImages
entry and the persisted row. -/
def processItem (env : ImageEnv) (pid sz : String) (i : Nat) (item : ImageItem) :
    Option (SavedImage × ImageRecord) :=
  match item.url with
  | none => none
  | some u =>
    match env.download u with
    | Except.error _ => none
    | Except.ok blob =>
      match env.upload i with
      | Except.error _ => none
      | Except.ok bucketUrl =>
        match env.insertImage i with
        | Except.error _ => none
        | Except.ok savedId =>
          some ({ id := savedId, url := u, bucketUrl := bucketUrl, size := sz },
                { prompt_id := pid, url := u, size := sz,
                  file_size := blob.size, mime_type := mimeOf blob })

/-- The for-loop of part_009 lines 113-160 starting at index i: the
savedImages list and the persisted images rows, in order. -/
def processItems (env : ImageEnv) (pid sz : String) : Nat → List ImageItem →
    List SavedImage × List ImageRecord
  | _, [] => ([], [])
  | i, item :: rest =>
    let tail := processItems env pid sz (i + 1) rest
    match processItem env pid sz i item with
    | none => tail
    | some sr => (sr.1 :: tail.1, sr.2 :: tail.2)

/-- The generateImage pipeline (part_009 lines 36-176): create the
prompt row, call the serverless function, process each returned item,
and validate the results. Returns the thrown error or the result,
paired with the rows persisted by the run. -/
def generateImage (params : GenerateImageParams) (env : ImageEnv) :
    Except String GeneratedImageResult × ImageDbState :=
  match env.promptInsert with
  | Except.error m =>
    (Except.error ("Failed to create prompt record: " ++ m), { prompts := [], images := [] })
  | Except.ok pid =>
    let promptRecord := mkPromptRecord params pid
    match env.apiResponse with
    | Except.error st =>
      (Except.error ("Server error: " ++ toString st.1 ++ " - " ++ st.2),
       { prompts := [promptRecord], images := [] })
    | Except.ok odata =>
      match odata with
      | none =>
        (Except.error "No image data received from API",
         { prompts := [promptRecord], images := [] })
      | some items =>
        if items.length = 0 then
          (Except.error "No image data received from API",
           { prompts := [promptRecord], images := [] })
        else
          let pr := processItems env promptRecord.id (params.size.getD "1024x1024") 0 items
          if pr.1.length = 0 then
            (Except.error "No images were successfully processed and saved",
             { prompts := [promptRecord], images := pr.2 })
          else
            (Except.ok { promptId := promptRecord.id, images := pr.1 },
             { prompts := [promptRecord], images := pr.2 })

/-- The serverless function of part_000 on a POST request: reject a
falsy prompt with 400, reject a missing API key with 500, otherwise
forward the upstream ModelArk outcome, re-wrapping an upstream failure
as API Error with the upstream status. Response bodies are modelled by
their error message or data payload; JSON wrapping is elided. -/
def handler (prompt : String) (apiKey : Option String)
    (ark : Except (Nat × String) (Option (List ImageItem))) :
    Nat × Except String (Option (List ImageItem)) :=
  if prompt = "" then
    (400, Except.error "Prompt is required")
  else
    match apiKey with
    | none => (500, Except.error "API key not configured")
    | some _ =>
      match ark with
      | Except.error st =>
        (st.1, Except.error ("API Error: " ++ toString st.1 ++ " - " ++ st.2))
      | Except.ok d => (200, Except.ok d)

/-- View of a handler response as seen by the fetch in generateImage
(part_009 lines 92-95): a non-2xx status makes response.ok false and
the body text becomes the Server error payload. -/
def handlerToApiResponse (resp : Nat × Except String (Option (List ImageItem))) :
    Except (Nat × String) (Option (List ImageItem)) :=
  if 200 ≤ resp.1 ∧ resp.1 < 300 then
    match resp.2 with
    | Except.ok d => Except.ok d
    | Except.error _ => Except.ok none
  else
    match resp.2 with
    | Except.error m => Except.error (resp.1, m)
    | Except.ok _ => Except.error (resp.1, "")

/-- Error message of a violated check constraint on the prompts table. -/
def promptCheckViolation : String :=
  "new row violates check constraint prompts_prompt_check"

/-- The prompts-table insert under the schema.sql constraint on the
prompt column, CHECK length of prompt greater than zero (schema.sql
line 49): an insert whose prompt has length zero fails with the
check-constraint error and persists nothing; any other prompt text is
admitted and the collaborator outcome applies. -/
def promptInsertWithCheck (prompt : String)
    (outcome : Except String String) : Except String String :=
  if prompt.length = 0 then Except.error promptCheckViolation else outcome

/-- Composition of generateImage with its real collaborators: the
prompt insert is subject to the schema check constraint on the prompt
column, and the apiResponse outcome is the serverless handler applied
to the request prompt. -/
def generateImageViaHandler (params : GenerateImageParams)
    (outcome : Except String String)
    (download : String → Except String Blob)
    (upload insertImage : Nat → Except String String)
    (apiKey : Option String)
    (ark : Except (Nat × String) (Option (List ImageItem))) :
    Except String GeneratedImageResult × ImageDbState :=
  generateImage params
    { promptInsert := promptInsertWithCheck params.prompt outcome
      apiResponse := handlerToApiResponse (handler params.prompt apiKey ark)
      download := download
      upload := upload
      insertImage := insertImage }

/-- Row of the prompts table as read by the history queries, restricted
to the fields those queries touch. Timestamps are naturals. -/
structure PromptRow where
  id : String
  user_id : String
  prompt : String
  type : String
  created_at : Nat
deriving DecidableEq, Repr

/-- Row of the images table as read by the history queries. -/
structure ImageRow where
  id : String
  prompt_id : String
  url : String
  created_at : Nat
deriving DecidableEq, Repr

/-- Persisted tables visible to the history queries. -/
structure HistoryDb where
  prompts : List PromptRow
  images : List ImageRow
deriving DecidableEq, Repr

/-- Insertion into a list kept sorted by created_at descending. -/
def insertByCreatedDesc {α : Type} (created : α → Nat) (x : α) :
    List α → List α
  | [] => [x]
  | y :: ys =>
    if created y ≤ created x then x :: y :: ys
    else y :: insertByCreatedDesc created x ys

/-- Model of the order clause ascending false on created_at. -/
def sortByCreatedDesc {α : Type} (created : α → Nat) : List α → List α
  | [] => []
  | x :: xs => insertByCreatedDesc created x (sortByCreatedDesc created xs)

/-- A list sorted by created_at descending. -/
def CreatedDescSorted {α : Type} (created : α → Nat) (l : List α) : Prop :=
  List.Pairwise (fun a b => created b ≤ created a) l

/-- The getUserPrompts query (part_011 lines 64-76): prompts of the
user, ordered by created_at descending, limited; an empty match yields
the empty list, not an error. -/
def getUserPrompts (db : HistoryDb) (userId : String) (lim : Nat) :
    List PromptRow :=
  (sortByCreatedDesc (fun p => p.created_at)
    (db.prompts.filter (fun p => p.user_id == userId))).take lim

/-- Inner-join condition of the getUserImages query: the image joins a
prompt row with the requested user id. -/
def imageBelongsTo (db : HistoryDb) (userId : String) (im : ImageRow) : Bool :=
  db.prompts.any (fun p => p.id == im.prompt_id && p.user_id == userId)

/-- The getUserImages query (ImageContext.tsx lines 78-93): images
inner-joined to prompts of the user, ordered by created_at descending,
limited; an empty match yields the empty list, not an error. -/
def getUserImages (db : HistoryDb) (userId : String) (lim : Nat) :
    List ImageRow :=
  (sortByCreatedDesc (fun im => im.created_at)
    (db.images.filter (imageBelongsTo db userId))).take lim

/-- History read as an operation on the store: it returns its result and
leaves the store untouched (the query mutates nothing). -/
def getUserPromptsOp (db : HistoryDb) (userId : String) (lim : Nat) :
    List PromptRow × HistoryDb :=
  (getUserPrompts db userId lim, db)

/-- History read of images as a store operation, read-only as well. -/
def getUserImagesOp (db : HistoryDb) (userId : String) (lim : Nat) :
    List ImageRow × HistoryDb :=
  (getUserImages db userId lim, db)

/-- PostgREST error as surfaced by the Supabase client. -/
structure PgError where
  code : String
  message : String
deriving DecidableEq, Repr

/-- Semantics of the single() modifier: exactly one row is returned as
is; zero or several rows yield the PGRST116 error. -/
def singleRow {α : Type} : List α → Except PgError α
  | [a] => Except.ok a
  | _ => Except.error { code := "PGRST116",
                        message := "JSON object requested, multiple (or no) rows returned" }

/-- Outcome of an eq-filter plus single() query: a transport failure
surfaces as its own error, otherwise singleRow applies to the matching
rows. -/
def runSingle {α : Type} (transport : Option PgError) (rows : List α) :
    Except PgError α :=
  match transport with
  | some e => Except.error e
  | none => singleRow rows

/-- The getPromptById lookup (part_011 lines 50-62): PGRST116 maps to
null, any other error is rethrown with the Failed to get prompt text. -/
def getPromptById (db : List PromptRow) (transport : Option PgError)
    (i : String) : Except String (Option PromptRow) :=
  match runSingle transport (db.filter (fun p => p.id == i)) with
  | Except.ok p => Except.ok (some p)
  | Except.error e =>
    if e.code = "PGRST116" then Except.ok none
    else Except.error ("Failed to get prompt: " ++ e.message)

/-- The getVideoById lookup (part_013 lines 53-65): PGRST116 maps to
null, any other error is rethrown with the Failed to get video text. -/
def getVideoById (db : List Video) (transport : Option PgError)
    (i : String) : Except String (Option Video) :=
  match runSingle transport (db.filter (fun v => v.id == i)) with
  | Except.ok v => Except.ok (some v)
  | Except.error e =>
    if e.code = "PGRST116" then Except.ok none
    else Except.error ("Failed to get video: " ++ e.message)

/-- Sample request parameters with a non-empty prompt. -/
def paramsFox : GenerateImageParams :=
  { prompt := "A red fox in snow", model := none, size := none,
    guidance_scale := none, watermark := none, userId := "user1" }

/-- Sample request parameters with an empty prompt. -/
def paramsEmpty : GenerateImageParams :=
  { prompt := "", model := none, size := none,
    guidance_scale := none, watermark := none, userId := "user1" }

/-- Sample request parameters with a whitespace-only prompt. -/
def paramsWs : GenerateImageParams :=
  { prompt := " ", model := none, size := none,
    guidance_scale := none, watermark := none, userId := "user1" }

/-- Environment with one returned URL whose download fails. -/
def envAllFail : ImageEnv :=
  { promptInsert := Except.ok "p1"
    apiResponse := Except.ok (some [{ url := some "u1" }])
    download := fun _ => Except.error "404 Not Found"
    upload := fun _ => Except.ok "bucket"
    insertImage := fun _ => Except.ok "img" }

/-- Environment whose serverless call fails with an upstream status. -/
def envApiDown : ImageEnv :=
  { promptInsert := Except.ok "p1"
    apiResponse := Except.error (503, "upstream unavailable")
    download := fun _ => Except.ok { size := 10, type := "image/png" }
    upload := fun _ => Except.ok "bucket"
    insertImage := fun _ => Except.ok "img" }

/-- Environment with three returned URLs where only the download of u2
fails; uploads and inserts succeed per index. -/
def envThree : ImageEnv :=
  { promptInsert := Except.ok "p1"
    apiResponse := Except.ok (some [{ url := some "u1" }, { url := some "u2" }, { url := some "u3" }])
    download := fun u => if u == "u2" then Except.error "download failed"
                         else Except.ok { size := 10, type := "image/png" }
    upload := fun i => Except.ok ("bucket" ++ toString i)
    insertImage := fun i => Except.ok ("img" ++ toString i) }

/-- Environment with one fully successful item: external url ext1,
bucket URL owned1, row id img1. -/
def envOneOk : ImageEnv :=
  { promptInsert := Except.ok "p1"
    apiResponse := Except.ok (some [{ url := some "ext1" }])
    download := fun _ => Except.ok { size := 10, type := "image/png" }
    upload := fun _ => Except.ok "owned1"
    insertImage := fun _ => Except.ok "img1" }

/-- String fields stored in a persisted images row. -/
def rowFields (r : ImageRecord) : List String :=
  [r.prompt_id, r.url, r.size, r.mime_type]

/-- Images row persisted by the successful run over envOneOk. -/
def rowOneOk : ImageRecord :=
  { prompt_id := "p1", url := "ext1", size := "1024x1024",
    file_size := 10, mime_type := "image/png" }

/-- Result entry returned by the successful run over envOneOk. -/
def savedOneOk : SavedImage :=
  { id := "img1", url := "ext1", bucketUrl := "owned1", size := "1024x1024" }

/-- Sample history store with two prompts of one user and one image. -/
def dbSample : HistoryDb :=
  { prompts := [{ id := "pA", user_id := "user1", prompt := "a", type := "image", created_at := 5 },
                { id := "pB", user_id := "user1", prompt := "b", type := "image", created_at := 9 }]
    images := [{ id := "iA", prompt_id := "pA", url := "u", created_at := 3 }] }

/-- An inactive interval never runs its body. -/
theorem pollTick_inactive (r : QueryResult) : pollTick false r = (false, false, none) := by
  simp [pollTick]

/-- Unfolding of pollRun over the first tick. -/
theorem pollRun_cons (a : Bool) (r : QueryResult) (rs : List QueryResult) :
    pollRun a (r :: rs) =
      ((pollTick a r).2.1, (pollTick a r).2.2) :: pollRun (pollTick a r).1 rs := rfl

/-- Unfolding of callbacksFired over the first tick. -/
theorem callbacksFired_cons (a : Bool) (r : QueryResult) (rs : List QueryResult) :
    callbacksFired a (r :: rs) =
      Option.toList (pollTick a r).2.2 ++ callbacksFired (pollTick a r).1 rs := by
  rw [callbacksFired, pollRun_cons, List.filterMap_cons, callbacksFired]
  cases h : (pollTick a r).2.2 <;> simp [h]

/-- Unfolding of queriesIssued over the first tick. -/
theorem queriesIssued_cons (a : Bool) (r : QueryResult) (rs : List QueryResult) :
    queriesIssued a (r :: rs) =
      (if (pollTick a r).2.1 then 1 else 0) + queriesIssued (pollTick a r).1 rs := by
  rw [queriesIssued, pollRun_cons, List.filter_cons, queriesIssued]
  cases h : (pollTick a r).2.1 <;> simp [h, Nat.add_comm]

/-- Once the interval is cleared, no status query is ever issued again. -/
theorem queriesIssued_inactive (rs : List QueryResult) : queriesIssued false rs = 0 := by
  induction rs with
  | nil => rfl
  | cons r rs ih =>
    rw [queriesIssued_cons, pollTick_inactive]
    simpa using ih

/-- Once the interval is cleared, no callback ever fires again. -/
theorem callbacksFired_inactive (rs : List QueryResult) : callbacksFired false rs = [] := by
  induction rs with
  | nil => rfl
  | cons r rs ih =>
    rw [callbacksFired_cons, pollTick_inactive]
    simpa using ih

/-- C1: once a tick of pollVideoStatus observes a terminal status, the
interval is cleared, and a cleared interval (also the one cleared by
the returned cancel function) never issues another status query nor
fires another callback; with a store whose first answer is terminal,
exactly one callback fires and exactly one query is issued. -/
theorem pollVideoStatus_terminal_and_cancel_stop (v : Video)
    (rest : List QueryResult) (hv : v.status.isTerminal = true) :
    (∀ s : Bool, (pollTick s (QueryResult.qfound v)).1 = false)
    ∧ (∀ rs : List QueryResult, queriesIssued false rs = 0 ∧ callbacksFired false rs = [])
    ∧ (∀ s : Bool, ∀ rs : List QueryResult,
        queriesIssued (pollCancel s) rs = 0 ∧ callbacksFired (pollCancel s) rs = [])
    ∧ callbacksFired pollStart (QueryResult.qfound v :: rest) = [v]
    ∧ queriesIssued pollStart (QueryResult.qfound v :: rest) = 1 := by
  have h1 : pollTick pollStart (QueryResult.qfound v) = (false, true, some v) := by
    simp [pollTick, pollStart, hv]
  refine ⟨?_, ?_, ?_, ?_, ?_⟩
  · intro s
    cases s
    · simp [pollTick]
    · simp [pollTick, hv]
  · intro rs
    exact ⟨queriesIssued_inactive rs, callbacksFired_inactive rs⟩
  · intro s rs
    exact ⟨queriesIssued_inactive rs, callbacksFired_inactive rs⟩
  · rw [callbacksFired_cons, h1]
    simpa using callbacksFired_inactive rest
  · rw [queriesIssued_cons, h1]
    simpa using queriesIssued_inactive rest

/-- Witness for C1 at a store that immediately reports succeeded. -/
theorem pollVideoStatus_terminal_and_cancel_stop_w :
    (pollTick pollStart (QueryResult.qfound vSucc)).1 = false
    ∧ callbacksFired pollStart [QueryResult.qfound vSucc, QueryResult.qfound vRunning] = [vSucc]
    ∧ queriesIssued pollStart [QueryResult.qfound vSucc, QueryResult.qfound vRunning] = 1 := by
  have h := pollVideoStatus_terminal_and_cancel_stop vSucc
    [QueryResult.qfound vRunning] (by decide)
  exact ⟨h.1 pollStart, h.2.2.2.1, h.2.2.2.2⟩

/-- C2 counterexample: on a two-tick trace whose first status query
fails, the claimed continuation would issue a second query, but the
catch block of pollVideoStatus clears the interval, so only one query
is ever issued. -/
theorem pollVideoStatus_error_continues_cex :
    ¬ queriesIssued pollStart
        [QueryResult.qerror "boom", QueryResult.qfound vRunning] = 2 := by
  decide

/-- C2 amended: a failed status query is logged and terminates the
polling loop: the error tick clears the interval, so it is the last
query issued; the error is not treated as the task failing, since no
callback fires at or after the error tick. -/
theorem pollVideoStatus_error_stops_polling (m : String) (rest : List QueryResult) :
    pollTick pollStart (QueryResult.qerror m) = (false, true, none)
    ∧ callbacksFired pollStart (QueryResult.qerror m :: rest) = []
    ∧ queriesIssued pollStart (QueryResult.qerror m :: rest) = 1 := by
  have h1 : pollTick pollStart (QueryResult.qerror m) = (false, true, none) := by
    simp [pollTick, pollStart]
  refine ⟨h1, ?_, ?_⟩
  · rw [callbacksFired_cons, h1]
    simpa using callbacksFired_inactive rest
  · rw [queriesIssued_cons, h1]
    simpa using queriesIssued_inactive rest

/-- C3 counterexample: a trace of two ticks both returning the same
running snapshot fires two callbacks, though the claim predicts at
most one callback when the status is unchanged. -/
theorem pollVideoStatus_unchanged_no_callback_cex :
    ¬ (callbacksFired pollStart
        [QueryResult.qfound vRunning, QueryResult.qfound vRunning]).length ≤ 1 := by
  decide

/-- C3 amended: a tick fires the callback exactly when the interval is
active and the query returned a video, and it passes that fetched
snapshot; no comparison with a previously observed status exists, so
an unchanged status still fires the callback. -/
theorem pollVideoStatus_callback_every_found (s : Bool) (r : QueryResult) (v : Video) :
    (pollTick s r).2.2 = some v ↔ s = true ∧ r = QueryResult.qfound v := by
  cases s <;> cases r <;> simp [pollTick]

/-- The savedImages list and the persisted-rows list of one run grow in
lock step: an images row is inserted exactly when a savedImages entry
is pushed. -/
theorem processItems_lengths (env : ImageEnv) (pid sz : String) (i : Nat)
    (items : List ImageItem) :
    (processItems env pid sz i items).1.length =
      (processItems env pid sz i items).2.length := by
  induction items generalizing i with
  | nil => rfl
  | cons item rest ih =>
    cases h : processItem env pid sz i item <;>
      simp [processItems, h, ih (i + 1)]

/-- Success anatomy of one loop iteration: a produced pair means the
item had a url, its download, upload and insert all succeeded, and the
pair is built from those outcomes. -/
theorem processItem_some (env : ImageEnv) (pid sz : String) (i : Nat)
    (item : ImageItem) (sr : SavedImage × ImageRecord)
    (h : processItem env pid sz i item = some sr) :
    ∃ u blob burl sid,
      item.url = some u
      ∧ env.download u = Except.ok blob
      ∧ env.upload i = Except.ok burl
      ∧ env.insertImage i = Except.ok sid
      ∧ sr = ({ id := sid, url := u, bucketUrl := burl, size := sz },
              { prompt_id := pid, url := u, size := sz,
                file_size := blob.size, mime_type := mimeOf blob }) := by
  cases hu : item.url with
  | none => simp [processItem, hu] at h
  | some u =>
    cases hd : env.download u with
    | error e => simp [processItem, hu, hd] at h
    | ok blob =>
      cases hup : env.upload i with
      | error e => simp [processItem, hu, hd, hup] at h
      | ok burl =>
        cases hins : env.insertImage i with
        | error e => simp [processItem, hu, hd, hup, hins] at h
        | ok sid =>
          simp only [processItem, hu, hd, hup, hins, Option.some.injEq] at h
          exact ⟨u, blob, burl, sid, rfl, hd, rfl, rfl, h.symm⟩

/-- C4 counterexample: with one returned URL whose download fails,
generateImage throws the no-output error with zero persisted rows, but
the Prompt row keeps its insert-time status pending, so the claimed
status Failed is false at this input. -/
theorem generateImage_no_output_failed_status_cex :
    ¬ ((generateImage paramsFox envAllFail).2.prompts.map (fun p => p.status)
        = [PromptStatus.failed]) := by
  decide

/-- C4 amended: when the API call succeeds with a non-empty list of
items but no item is fully processed, generateImage returns the
no-output error with zero Media rows persisted, and the Prompt row
keeps its insert-time status pending (it is never set to Failed). -/
theorem generateImage_no_output (params : GenerateImageParams) (env : ImageEnv)
    (pid : String) (items : List ImageItem)
    (hins : env.promptInsert = Except.ok pid)
    (happ : env.apiResponse = Except.ok (some items))
    (hne : ¬ items.length = 0)
    (hall : (processItems env (mkPromptRecord params pid).id
              (params.size.getD "1024x1024") 0 items).1 = []) :
    generateImage params env =
      (Except.error "No images were successfully processed and saved",
       { prompts := [mkPromptRecord params pid], images := [] })
    ∧ (mkPromptRecord params pid).status = PromptStatus.pending := by
  refine ⟨?_, rfl⟩
  have hrows : (processItems env (mkPromptRecord params pid).id
      (params.size.getD "1024x1024") 0 items).2 = [] := by
    have hl := processItems_lengths env (mkPromptRecord params pid).id
      (params.size.getD "1024x1024") 0 items
    rw [hall] at hl
    exact List.length_eq_zero.mp hl.symm
  simp [generateImage, hins, happ, hne, hall, hrows]

/-- Witness for C4 at the single-URL environment whose download fails. -/
theorem generateImage_no_output_w :
    generateImage paramsFox envAllFail =
      (Except.error "No images were successfully processed and saved",
       { prompts := [mkPromptRecord paramsFox "p1"], images := [] })
    ∧ (mkPromptRecord paramsFox "p1").status = PromptStatus.pending :=
  generateImage_no_output paramsFox envAllFail "p1" [{ url := some "u1" }]
    rfl rfl (by decide) (by decide)

/-- C5 counterexample: with the serverless call failing upstream,
generateImage leaves the already-created Prompt row at status pending,
so the claimed marking of status Failed is false at this input. -/
theorem generateImage_api_error_failed_status_cex :
    ¬ ((generateImage paramsFox envApiDown).2.prompts.map (fun p => p.status)
        = [PromptStatus.failed]) := by
  decide

/-- C5 amended: a non-2xx serverless response makes generateImage throw
a Server error that carries the upstream status and message verbatim,
with the already-created Prompt row persisted and left at its
insert-time status pending (it is never marked Failed). -/
theorem generateImage_api_error_propagates (params : GenerateImageParams)
    (env : ImageEnv) (pid : String) (st : Nat) (msg : String)
    (hins : env.promptInsert = Except.ok pid)
    (happ : env.apiResponse = Except.error (st, msg)) :
    generateImage params env =
      (Except.error ("Server error: " ++ toString st ++ " - " ++ msg),
       { prompts := [mkPromptRecord params pid], images := [] })
    ∧ (mkPromptRecord params pid).status = PromptStatus.pending := by
  refine ⟨?_, rfl⟩
  simp [generateImage, hins, happ]

/-- Witness for C5 at the upstream-503 environment. -/
theorem generateImage_api_error_propagates_w :
    generateImage paramsFox envApiDown =
      (Except.error ("Server error: " ++ toString 503 ++ " - " ++ "upstream unavailable"),
       { prompts := [mkPromptRecord paramsFox "p1"], images := [] })
    ∧ (mkPromptRecord paramsFox "p1").status = PromptStatus.pending :=
  generateImage_api_error_propagates paramsFox envApiDown "p1" 503
    "upstream unavailable" rfl rfl

/-- C6: a failing item in the middle of the loop does not abort its
siblings: processing a list with a failing item in the middle yields
exactly the saved entries and persisted rows of the items before it
and after it, each processed at its own loop index. -/
theorem generateImage_item_isolation (env : ImageEnv) (pid sz : String)
    (i : Nat) (xs ys : List ImageItem) (bad : ImageItem)
    (hbad : processItem env pid sz (i + xs.length) bad = none) :
    processItems env pid sz i (xs ++ bad :: ys) =
      ((processItems env pid sz i xs).1 ++
         (processItems env pid sz (i + xs.length + 1) ys).1,
       (processItems env pid sz i xs).2 ++
         (processItems env pid sz (i + xs.length + 1) ys).2) := by
  induction xs generalizing i with
  | nil =>
    have hbad0 : processItem env pid sz i bad = none := by simpa using hbad
    simp [processItems, hbad0]
  | cons x xs ih =>
    have harith : i + 1 + xs.length = i + (x :: xs).length := by
      simp [List.length_cons]
      omega
    have hbad2 : processItem env pid sz (i + 1 + xs.length) bad = none := by
      rw [harith]; exact hbad
    have hih := ih (i + 1) hbad2
    have harith2 : i + (x :: xs).length + 1 = i + 1 + xs.length + 1 := by
      rw [harith]
    rw [List.cons_append]
    simp only [processItems]
    rw [hih, harith2]
    cases h : processItem env pid sz i x <;> simp [h]

/-- Witness for C6: three URLs where only the second download fails
give exactly the two sibling rows, two rows persisted in total. -/
theorem generateImage_item_isolation_w :
    processItem envThree "p1" "1024x1024"
      (0 + List.length [({ url := some "u1" } : ImageItem)]) { url := some "u2" } = none
    ∧ processItems envThree "p1" "1024x1024" 0
        [{ url := some "u1" }, { url := some "u2" }, { url := some "u3" }] =
      ((processItems envThree "p1" "1024x1024" 0 [{ url := some "u1" }]).1 ++
         (processItems envThree "p1" "1024x1024"
           (0 + List.length [({ url := some "u1" } : ImageItem)] + 1) [{ url := some "u3" }]).1,
       (processItems envThree "p1" "1024x1024" 0 [{ url := some "u1" }]).2 ++
         (processItems envThree "p1" "1024x1024"
           (0 + List.length [({ url := some "u1" } : ImageItem)] + 1) [{ url := some "u3" }]).2)
    ∧ ((processItems envThree "p1" "1024x1024" 0
        [{ url := some "u1" }, { url := some "u2" }, { url := some "u3" }]).2).length = 2 := by
  refine ⟨by decide, ?_, by decide⟩
  exact generateImage_item_isolation envThree "p1" "1024x1024" 0
    [{ url := some "u1" }] [{ url := some "u3" }] { url := some "u2" } (by decide)

/-- C7 counterexample: a fully successful single-item run returns the
bucket URL owned1 in its in-memory result, yet the persisted images
row carries only the external url — owned1 appears in no stored field,
so the claim that every persisted Media row has the ownedUrl set is
false at this input. -/
theorem generateImage_ownedUrl_persisted_cex :
    (generateImage paramsFox envOneOk).1 =
      Except.ok { promptId := "p1", images := [savedOneOk] }
    ∧ savedOneOk.bucketUrl = "owned1"
    ∧ (generateImage paramsFox envOneOk).2.images = [rowOneOk]
    ∧ ¬ ("owned1" ∈ rowFields rowOneOk) := by
  refine ⟨rfl, rfl, rfl, by decide⟩

/-- C7 amended: every persisted images row references the owning prompt
and stores the external url of an item of the response, and it is
written only after a verified transfer: its download succeeded (the
stored file_size is the downloaded blob size) and some upload
succeeded; the bucket URL itself lives only in the in-memory result,
where each entry carries the URL of a successful upload that followed
a successful download. -/
theorem generateImage_media_row_provenance (env : ImageEnv) (pid sz : String)
    (i : Nat) (items : List ImageItem) :
    (∀ r ∈ (processItems env pid sz i items).2,
        r.prompt_id = pid
        ∧ (∃ item ∈ items, item.url = some r.url)
        ∧ (∃ blob, env.download r.url = Except.ok blob ∧ r.file_size = blob.size)
        ∧ (∃ j burl, env.upload j = Except.ok burl))
    ∧ (∀ s ∈ (processItems env pid sz i items).1,
        ∃ blob, env.download s.url = Except.ok blob
          ∧ ∃ j, env.upload j = Except.ok s.bucketUrl) := by
  induction items generalizing i with
  | nil => simp [processItems]
  | cons item rest ih =>
    obtain ⟨ihRows, ihSaved⟩ := ih (i + 1)
    simp only [processItems]
    cases h : processItem env pid sz i item with
    | none =>
      refine ⟨?_, ?_⟩
      · intro r hr
        obtain ⟨h1, ⟨it, hit, hitu⟩, h3, h4⟩ := ihRows r hr
        exact ⟨h1, ⟨it, List.mem_cons_of_mem item hit, hitu⟩, h3, h4⟩
      · intro s hs
        exact ihSaved s hs
    | some sr =>
      obtain ⟨u, blob, burl, sid, hu, hd, hup, hins, hsr⟩ :=
        processItem_some env pid sz i item sr h
      refine ⟨?_, ?_⟩
      · intro r hr
        rcases List.mem_cons.mp hr with hr1 | hr2
        · subst hsr
          subst hr1
          exact ⟨rfl, ⟨item, List.mem_cons_self item rest, hu⟩,
                 ⟨blob, hd, rfl⟩, ⟨i, burl, hup⟩⟩
        · obtain ⟨h1, ⟨it, hit, hitu⟩, h3, h4⟩ := ihRows r hr2
          exact ⟨h1, ⟨it, List.mem_cons_of_mem item hit, hitu⟩, h3, h4⟩
      · intro s hs
        rcases List.mem_cons.mp hs with hs1 | hs2
        · subst hsr
          subst hs1
          exact ⟨blob, hd, ⟨i, hup⟩⟩
        · exact ihSaved s hs2

/-- Witness for C7 at the fully successful single-item environment. -/
theorem generateImage_media_row_provenance_w :
    (rowOneOk.prompt_id = "p1"
      ∧ (∃ item ∈ [({ url := some "ext1" } : ImageItem)], item.url = some rowOneOk.url)
      ∧ (∃ blob, envOneOk.download rowOneOk.url = Except.ok blob
          ∧ rowOneOk.file_size = blob.size)
      ∧ (∃ j burl, envOneOk.upload j = Except.ok burl))
    ∧ (∃ blob, envOneOk.download savedOneOk.url = Except.ok blob
        ∧ ∃ j, envOneOk.upload j = Except.ok savedOneOk.bucketUrl) := by
  have h := generateImage_media_row_provenance envOneOk "p1" "1024x1024" 0
    [{ url := some "ext1" }]
  exact ⟨h.1 rowOneOk (by decide), h.2 savedOneOk (by decide)⟩

/-- Sample download collaborator that always succeeds. -/
def dlOk : String → Except String Blob :=
  fun _ => Except.ok { size := 10, type := "image/png" }

/-- Sample upload collaborator that always succeeds. -/
def upOk : Nat → Except String String :=
  fun _ => Except.ok "bucket"

/-- Sample images-insert collaborator that always succeeds. -/
def insOk : Nat → Except String String :=
  fun _ => Except.ok "img"

/-- Once the prompt insert has succeeded, every branch of generateImage
leaves exactly the one created Prompt row persisted. -/
theorem generateImage_prompts_of_ok (params : GenerateImageParams)
    (env : ImageEnv) (pid : String)
    (hins : env.promptInsert = Except.ok pid) :
    (generateImage params env).2.prompts = [mkPromptRecord params pid] := by
  simp only [generateImage, hins]
  cases happ : env.apiResponse with
  | error st => rfl
  | ok odata =>
    cases odata with
    | none => rfl
    | some items =>
      by_cases h0 : items.length = 0
      · simp [h0]
      · simp only [if_neg h0]
        by_cases h1 : (processItems env (mkPromptRecord params pid).id
            (params.size.getD "1024x1024") 0 items).1.length = 0
        · simp [h1]
        · simp [h1]

/-- C8 counterexample: a whitespace-only prompt passes both the schema
check constraint on the prompts table and the falsy-prompt check of
the serverless function, so the run persists a Prompt row — the claim
that no Prompt row is ever created for such a request is false at this
input. -/
theorem validation_before_orchestrator_cex :
    ¬ ((generateImageViaHandler paramsWs (Except.ok "p1") dlOk upOk insOk
          (some "key") (Except.ok (some [{ url := some "u1" }]))).2.prompts = []) := by
  decide

/-- C8 amended: no ValidationError precedes the orchestrator. With an
empty prompt generateImage still runs and its Step-1 insert fails
against the schema check constraint on the prompt column, so the
operation throws the persistence error Failed to create prompt record
before any serverless call and persists no Prompt row; with a
whitespace-only prompt no validation occurs anywhere: the serverless
function forwards the request upstream and the Prompt row is
persisted. -/
theorem generateImage_no_prompt_validation (pe pw : GenerateImageParams)
    (pid k : String) (dl : String → Except String Blob)
    (up ins : Nat → Except String String)
    (ark : Except (Nat × String) (Option (List ImageItem)))
    (he : pe.prompt = "") (hw : pw.prompt = " ") :
    generateImageViaHandler pe (Except.ok pid) dl up ins (some k) ark =
      (Except.error ("Failed to create prompt record: " ++ promptCheckViolation),
       { prompts := [], images := [] })
    ∧ (∀ d, handler " " (some k) (Except.ok d) = (200, Except.ok d))
    ∧ (generateImageViaHandler pw (Except.ok pid) dl up ins (some k) ark).2.prompts
        = [mkPromptRecord pw pid] := by
  refine ⟨?_, ?_, ?_⟩
  · have hh : promptInsertWithCheck pe.prompt (Except.ok pid) =
        Except.error promptCheckViolation := by
      rw [he]
      rfl
    simp [generateImageViaHandler, generateImage, hh]
  · intro d
    rfl
  · have hok : promptInsertWithCheck pw.prompt (Except.ok pid) = Except.ok pid := by
      rw [hw]
      rfl
    exact generateImage_prompts_of_ok pw _ pid hok

/-- Witness for C8 at the empty-prompt and whitespace-prompt inputs. -/
theorem generateImage_no_prompt_validation_w :
    (generateImageViaHandler paramsEmpty (Except.ok "p1") dlOk upOk insOk
        (some "key") (Except.ok (some [{ url := some "u1" }])) =
      (Except.error ("Failed to create prompt record: " ++ promptCheckViolation),
       { prompts := [], images := [] }))
    ∧ (∀ d, handler " " (some "key") (Except.ok d) = (200, Except.ok d))
    ∧ (generateImageViaHandler paramsWs (Except.ok "p1") dlOk upOk insOk
        (some "key") (Except.ok (some [{ url := some "u1" }]))).2.prompts
        = [mkPromptRecord paramsWs "p1"] :=
  generateImage_no_prompt_validation paramsEmpty paramsWs "p1" "key" dlOk upOk insOk
    (Except.ok (some [{ url := some "u1" }])) rfl rfl

/-- Membership through the sorted insertion. -/
theorem mem_insertByCreatedDesc {α : Type} (created : α → Nat) (x z : α)
    (l : List α) :
    z ∈ insertByCreatedDesc created x l ↔ z = x ∨ z ∈ l := by
  induction l with
  | nil => simp [insertByCreatedDesc]
  | cons y ys ih =>
    by_cases h : created y ≤ created x
    · simp [insertByCreatedDesc, h]
    · simp only [insertByCreatedDesc, if_neg h, List.mem_cons, ih]
      tauto

/-- Sorted insertion preserves the descending order. -/
theorem pairwise_insertByCreatedDesc {α : Type} (created : α → Nat) (x : α)
    (l : List α) (h : List.Pairwise (fun a b => created b ≤ created a) l) :
    List.Pairwise (fun a b => created b ≤ created a)
      (insertByCreatedDesc created x l) := by
  induction l with
  | nil => simp [insertByCreatedDesc]
  | cons y ys ih =>
    rcases List.pairwise_cons.mp h with ⟨hy, hys⟩
    by_cases hc : created y ≤ created x
    · simp only [insertByCreatedDesc, if_pos hc]
      refine List.pairwise_cons.mpr ⟨?_, h⟩
      intro z hz
      rcases List.mem_cons.mp hz with rfl | hz2
      · exact hc
      · exact le_trans (hy z hz2) hc
    · simp only [insertByCreatedDesc, if_neg hc]
      refine List.pairwise_cons.mpr ⟨?_, ih hys⟩
      intro z hz
      rcases (mem_insertByCreatedDesc created x z ys).mp hz with rfl | hz2
      · exact le_of_not_le hc
      · exact hy z hz2

/-- The modelled order clause produces a descending-sorted list. -/
theorem pairwise_sortByCreatedDesc {α : Type} (created : α → Nat)
    (l : List α) :
    List.Pairwise (fun a b => created b ≤ created a)
      (sortByCreatedDesc created l) := by
  induction l with
  | nil => simp [sortByCreatedDesc]
  | cons x xs ih =>
    simp only [sortByCreatedDesc]
    exact pairwise_insertByCreatedDesc created x _ ih

/-- C9: history reads return rows ordered by created_at descending,
yield the empty list (not an error) when nothing matches, leave the
store untouched, and a second read over the store returned by a first
read — identical filters, no intervening writes — gives the identical
ordered result. -/
theorem history_reads_ordered_total (db : HistoryDb) (u : String) (lim : Nat) :
    CreatedDescSorted (fun p => p.created_at) (getUserPrompts db u lim)
    ∧ CreatedDescSorted (fun im => im.created_at) (getUserImages db u lim)
    ∧ ((∀ p ∈ db.prompts, ¬ p.user_id = u) → getUserPrompts db u lim = [])
    ∧ ((∀ im ∈ db.images, imageBelongsTo db u im = false) →
        getUserImages db u lim = [])
    ∧ (getUserPromptsOp db u lim).2 = db
    ∧ (getUserImagesOp db u lim).2 = db
    ∧ (getUserPromptsOp (getUserPromptsOp db u lim).2 u lim).1 =
        (getUserPromptsOp db u lim).1
    ∧ (getUserImagesOp (getUserImagesOp db u lim).2 u lim).1 =
        (getUserImagesOp db u lim).1 := by
  refine ⟨?_, ?_, ?_, ?_, rfl, rfl, rfl, rfl⟩
  · exact List.Pairwise.sublist (List.take_sublist _ _)
      (pairwise_sortByCreatedDesc _ _)
  · exact List.Pairwise.sublist (List.take_sublist _ _)
      (pairwise_sortByCreatedDesc _ _)
  · intro h
    have hnil : db.prompts.filter (fun p => p.user_id == u) = [] := by
      apply List.filter_eq_nil_iff.mpr
      intro p hp
      simpa using h p hp
    simp [getUserPrompts, hnil, sortByCreatedDesc]
  · intro h
    have hnil : db.images.filter (imageBelongsTo db u) = [] := by
      apply List.filter_eq_nil_iff.mpr
      intro im him
      simp [h im him]
    simp [getUserImages, hnil, sortByCreatedDesc]

/-- Witness for C9: sortedness at the sample store, and the empty
result for an owner with no rows. -/
theorem history_reads_ordered_total_w :
    CreatedDescSorted (fun p => p.created_at) (getUserPrompts dbSample "user1" 50)
    ∧ getUserPrompts dbSample "nobody" 50 = []
    ∧ getUserImages dbSample "nobody" 50 = []
    ∧ (getUserPromptsOp (getUserPromptsOp dbSample "user1" 50).2 "user1" 50).1 =
        (getUserPromptsOp dbSample "user1" 50).1 := by
  refine ⟨(history_reads_ordered_total dbSample "user1" 50).1, ?_, ?_, ?_⟩
  · exact (history_reads_ordered_total dbSample "nobody" 50).2.2.1 (by decide)
  · exact (history_reads_ordered_total dbSample "nobody" 50).2.2.2.1 (by decide)
  · exact (history_reads_ordered_total dbSample "user1" 50).2.2.2.2.2.2.1

/-- C10: an id lookup whose query matches no row returns null rather
than an error (the PGRST116 no-rows case of single() maps to none),
while a persistence failure with any other code is raised as an
error carrying its message. -/
theorem getById_not_found_is_null (dbP : List PromptRow) (dbV : List Video)
    (i : String) (e : PgError)
    (hp : dbP.filter (fun p => p.id == i) = [])
    (hv : dbV.filter (fun v => v.id == i) = [])
    (he : ¬ e.code = "PGRST116") :
    getPromptById dbP none i = Except.ok none
    ∧ getVideoById dbV none i = Except.ok none
    ∧ getPromptById dbP (some e) i =
        Except.error ("Failed to get prompt: " ++ e.message)
    ∧ getVideoById dbV (some e) i =
        Except.error ("Failed to get video: " ++ e.message) := by
  refine ⟨?_, ?_, ?_, ?_⟩
  · simp [getPromptById, runSingle, hp, singleRow]
  · simp [getVideoById, runSingle, hv, singleRow]
  · simp [getPromptById, runSingle, he]
  · simp [getVideoById, runSingle, he]

/-- Witness for C10 at the sample store and a non-PGRST116 error. -/
theorem getById_not_found_is_null_w :
    getPromptById dbSample.prompts none "zzz" = Except.ok none
    ∧ getVideoById [vRunning] none "zzz" = Except.ok none
    ∧ getPromptById dbSample.prompts (some { code := "500", message := "boom" }) "zzz" =
        Except.error ("Failed to get prompt: " ++ "boom")
    ∧ getVideoById [vRunning] (some { code := "500", message := "boom" }) "zzz" =
        Except.error ("Failed to get video: " ++ "boom") :=
  getById_not_found_is_null dbSample.prompts [vRunning] "zzz"
    { code := "500", message := "boom" } (by decide) (by decide) (by decide)

end MediaGen
